import Mathlib

/-!
Verification of the drawdb persistence and real-time synchronization subsystem.

This file gives a shallow embedding, in Lean 4, of the JavaScript source of the
drawdb server and client: the credential vault (src/server/db/config.js,
ConfigManager.encrypt / decrypt), the configuration store (ConfigManager),
the connection manager (testConnection and the SSH tunnel lifecycle), the
multi-engine document store (Database.updateDiagram* / deleteDiagram*), the
Sync Gateway (the socket.io 'diagram-updated' handlers and the HTTP PUT
broadcast), and the client save/load controller (Workspace.jsx).

Modelling conventions:
* JavaScript strings are modelled either as Lean `String`s or — where the code
  manipulates raw bytes (Buffers, utf8/hex codecs) — as `List Nat` of byte
  values; a string and its UTF-8 byte sequence are identified.
* `null`/`undefined` are modelled with `Option`; JS truthiness is made explicit
  (empty string, 0, null and undefined are falsy).
* Asynchronous code is modelled by explicit state passing; the outcome of each
  external call (driver connect, SQL query, SSH handshake) is an explicit
  oracle argument, so every definition stays executable.
* The AES-256-CBC block cipher supplied by node:crypto is modelled by an
  abstract keyed block permutation (a pair of functions E, D on 16-byte
  blocks); the CBC chaining, PKCS7 padding, hex encoding and the
  iv-colon-ciphertext envelope are implemented concretely, exactly as the
  library applies them to the code's inputs.
-/

namespace DrawDB

/-! ### Byte-level codecs used by the credential vault

`ConfigManager.encrypt` (src/server/db/config.js lines 146-156) produces
`iv.toString('hex') + ':' + encrypted` where `encrypted` is the hex encoding
of the AES-256-CBC ciphertext of the utf8 bytes of the input, under a fresh
random 16-byte iv. `ConfigManager.decrypt` (lines 158-180) splits on ':',
treats anything that does not have exactly two parts as a legacy value and
returns it unchanged, otherwise hex-decodes the iv and ciphertext and runs
the CBC decryption. -/

namespace Vault

/-- Colon separator byte (':' in the envelope format). -/
def colon : Nat := 58

/-- ASCII code of the hex digit for a nibble, lowercase as produced by
Buffer.toString('hex'). -/
def hexDigit (n : Nat) : Nat :=
  if n < 10 then 48 + n else 87 + n

/-- Two lowercase hex digit bytes for one byte, as Buffer.toString('hex'). -/
def byteToHex (b : Nat) : List Nat := [hexDigit (b / 16), hexDigit (b % 16)]

/-- Hex encoding of a byte sequence (ASCII codes of the hex digits). -/
def bytesToHex (bs : List Nat) : List Nat := (bs.map byteToHex).flatten

/-- Value of one hex digit byte, as Buffer.from(s, 'hex') reads it. -/
def hexVal (c : Nat) : Nat :=
  if 48 ≤ c ∧ c ≤ 57 then c - 48
  else if 97 ≤ c ∧ c ≤ 102 then c - 87
  else 0

/-- Hex decoding back to bytes, two digits per byte. -/
def hexToBytes : List Nat → List Nat
  | c1 :: c2 :: rest => (16 * hexVal c1 + hexVal c2) :: hexToBytes rest
  | _ => []

/-- Accumulator form of the JavaScript String.split(':') used by decrypt. -/
def splitColonAux : List Nat → List Nat → List (List Nat)
  | [], acc => [acc.reverse]
  | c :: rest, acc =>
      if c = colon then acc.reverse :: splitColonAux rest []
      else splitColonAux rest (c :: acc)

/-- Embedding of encryptedText.split(':') over byte sequences. -/
def splitColon (s : List Nat) : List (List Nat) := splitColonAux s []

/-- Bytewise xor of two equal-length blocks, as CBC chains blocks. -/
def xorBytes (a b : List Nat) : List Nat := List.zipWith (fun x y => x ^^^ y) a b

/-- PKCS7 padding to a multiple of the 16-byte AES block size, applied by
node:crypto before encryption. -/
def pkcs7pad (bs : List Nat) : List Nat :=
  bs ++ List.replicate (16 - bs.length % 16) (16 - bs.length % 16)

/-- PKCS7 unpadding applied by node:crypto after decryption. -/
def pkcs7unpad (bs : List Nat) : List Nat :=
  match bs.getLast? with
  | none => []
  | some k => bs.take (bs.length - k)

/-- Split a byte sequence into consecutive 16-byte blocks. -/
def chunks16 (bs : List Nat) : List (List Nat) :=
  if h : bs = [] then [] else
    have : (List.drop 16 bs).length < bs.length := by
      have hpos : 0 < bs.length := List.length_pos.mpr h
      simp only [List.length_drop]
      omega
    bs.take 16 :: chunks16 (bs.drop 16)
termination_by bs.length

/-- CBC encryption of a list of plaintext blocks with block cipher E and
chaining value prev (initially the iv). -/
def cbcEncBlocks (E : List Nat → List Nat) (prev : List Nat) :
    List (List Nat) → List (List Nat)
  | [] => []
  | b :: rest =>
      E (xorBytes b prev) :: cbcEncBlocks E (E (xorBytes b prev)) rest

/-- CBC decryption of a list of ciphertext blocks with block cipher inverse D
and chaining value prev (initially the iv). -/
def cbcDecBlocks (D : List Nat → List Nat) (prev : List Nat) :
    List (List Nat) → List (List Nat)
  | [] => []
  | c :: rest => xorBytes (D c) prev :: cbcDecBlocks D c rest

/-- Embedding of ConfigManager.encrypt (config.js lines 146-156): empty input
is returned unchanged as the empty string; otherwise the utf8 bytes of the
input are PKCS7-padded, CBC-encrypted under the fresh iv with the keyed block
cipher E, and the envelope hex(iv) ++ ':' ++ hex(ciphertext) is returned. -/
def encrypt (E : List Nat → List Nat) (iv : List Nat) (text : List Nat) :
    List Nat :=
  if text = [] then []
  else bytesToHex iv ++ colon :: bytesToHex ((cbcEncBlocks E iv (chunks16 (pkcs7pad text))).flatten)

/-- Embedding of ConfigManager.decrypt (config.js lines 158-180): empty input
returns the empty string; an input that does not split on ':' into exactly two
parts is a legacy value and is returned unchanged; otherwise the iv and
ciphertext are hex-decoded and CBC-decrypted with the block cipher inverse D
and the result unpadded. -/
def decrypt (D : List Nat → List Nat) (encryptedText : List Nat) : List Nat :=
  if encryptedText = [] then []
  else
    let parts := splitColon encryptedText
    if parts.length = 2 then
      pkcs7unpad ((cbcDecBlocks D (hexToBytes (parts.getD 0 []))
        (chunks16 (hexToBytes (parts.getD 1 [])))).flatten)
    else encryptedText

/-- Bytewise complement, a simple involutive byte permutation used to
instantiate the abstract block cipher in concrete witnesses. -/
def flipByte (x : Nat) : Nat := 255 - x

/-- Blockwise application of flipByte: an involutive 16-byte block
permutation standing in for one AES key schedule in witnesses. -/
def flipBlock (b : List Nat) : List Nat := b.map flipByte

/-- An all-zero 16-byte initialization vector for concrete witnesses. -/
def ivZero : List Nat := List.replicate 16 0

/-- The utf8 bytes of the sample secret string used in witnesses. -/
def sampleSecret : List Nat := [104, 105]

end Vault

/-! ### Configuration Store (ConfigManager, src/server/db/config.js)

The configuration catalog is the database_configs table; a row per
(engine, name). `sanitizeForEngine` (lines 427-468) is a pure function on
config objects; `saveConfig` (lines 183-256) sanitizes, encrypts secret
fields and upserts keyed on (engine, name); `setDefaultConfig`
(lines 402-425) clears is_default on every row and then sets it on every
row of the given engine; `ensureDefaultConfig` (lines 68-102) inserts one
baseline sqlite row when none exists; `getAllConfigs` (lines 259-300)
decrypts the secret fields of every row and sanitizes the result, and the
route handler app.get('/api/configs') returns that list verbatim. -/

namespace Config

/-- ASCII lowercase conversion of one character, as String.toLowerCase acts
on the characters appearing in engine names. -/
def jsLowerChar (c : Char) : Char :=
  if 65 ≤ c.toNat ∧ c.toNat ≤ 90 then Char.ofNat (c.toNat + 32) else c

/-- Embedding of the JavaScript toLowerCase on engine names. -/
def jsToLower (s : String) : String := String.mk (s.data.map jsLowerChar)

/-- JS truthiness of a nullable string: null, undefined and the empty string
are falsy. -/
def truthyStr : Option String → Bool
  | none => false
  | some s => decide (s ≠ "")

/-- JS truthiness of a nullable number: null, undefined and 0 are falsy. -/
def truthyNat : Option Nat → Bool
  | none => false
  | some n => decide (n ≠ 0)

/-- Bundled default SQLite file path, the join(__dirname, '..',
'drawdb.sqlite') constant of config.js (the concrete directory prefix is
irrelevant to every property proved here; only its non-emptiness matters). -/
def defaultSQLitePath : String := "server/drawdb.sqlite"

/-- Configuration object as passed to sanitizeForEngine / saveConfig.
Nullable JS fields are Options (none is null/undefined, some empty string is
the JS empty string); configured and is_default keep their
destructuring-default behaviour via Option Bool. -/
structure StorageConfig where
  engine : Option String
  name : Option String
  host : Option String
  port : Option Nat
  username : Option String
  password : Option String
  database : Option String
  filePath : Option String
  useSSL : Bool
  useSSH : Bool
  sshHost : Option String
  sshPort : Option Nat
  sshUser : Option String
  privateKey : Option String
  passphrase : Option String
  ca : Option String
  cert : Option String
  key : Option String
  configured : Option Bool
  is_default : Option Bool
  deriving Repr, DecidableEq

/-- Configuration object with every field null / absent, for building
concrete inputs. -/
def emptyConfig : StorageConfig :=
  { engine := none, name := none, host := none, port := none,
    username := none, password := none, database := none, filePath := none,
    useSSL := false, useSSH := false, sshHost := none, sshPort := none,
    sshUser := none, privateKey := none, passphrase := none, ca := none,
    cert := none, key := none, configured := none, is_default := none }

/-- Embedding of ConfigManager.sanitizeForEngine (config.js lines 427-468):
lowercases the engine, clears the fields not meaningful to that engine and
fills engine-appropriate defaults. The null-input passthrough at the top of
the source function is outside this total embedding over config records. -/
def sanitizeForEngine (input : StorageConfig) : StorageConfig :=
  let engine := jsToLower (input.engine.getD "")
  let cfg := { input with engine := some engine }
  if engine = "sqlite" then
    { cfg with
      host := none, port := none, username := none,
      password := some "", database := none,
      useSSL := false, useSSH := false,
      sshHost := none, sshPort := none, sshUser := none,
      privateKey := some "", passphrase := some "", ca := some "",
      cert := some "", key := some "",
      filePath := if truthyStr cfg.filePath then cfg.filePath
        else some defaultSQLitePath }
  else if engine = "mysql" ∨ engine = "postgresql" then
    { cfg with
      filePath := none,
      port := if truthyNat cfg.port then cfg.port
        else some (if engine = "mysql" then 3306 else 5432),
      database := if truthyStr cfg.database then cfg.database
        else some "drawdb" }
  else cfg

/-- Stored row of the database_configs table. Secret columns hold whatever
string ConfigManager.encrypt produced ('' for falsy input, an envelope
otherwise). -/
structure ConfigRow where
  id : Nat
  engine : Option String
  name : Option String
  host : Option String
  port : Option Nat
  username : Option String
  password : Option String
  database : Option String
  filePath : Option String
  useSSL : Bool
  useSSH : Bool
  sshHost : Option String
  sshPort : Option Nat
  sshUser : Option String
  privateKey : Option String
  passphrase : Option String
  ca : Option String
  cert : Option String
  key : Option String
  configured : Bool
  is_default : Bool
  deriving Repr, DecidableEq

/-- Application of this.encrypt to a nullable secret field before writing:
encrypt returns '' on falsy input and otherwise an envelope, abstracted here
by the per-call cipher function e (which accounts for the fresh iv drawn by
that call). -/
def encField (e : String → String) : Option String → Option String
  | none => some ""
  | some s => if s = "" then some "" else some (e s)

/-- Application of this.decrypt to a stored secret column on read-back:
decrypt returns '' on falsy input and otherwise the decrypted (or
legacy-passthrough) string, abstracted by d. -/
def decField (d : String → String) : Option String → Option String
  | none => some ""
  | some s => if s = "" then some "" else some (d s)

/-- Fresh AUTOINCREMENT id for an insert into database_configs. -/
def nextConfigId (table : List ConfigRow) : Nat :=
  (table.map (fun r => r.id)).foldr max 0 + 1

/-- Embedding of ConfigManager.saveConfig (config.js lines 183-256):
sanitize, encrypt the six secret fields, then update the existing
(engine, name) row — leaving its engine, name and id untouched — or insert a
new row. Returns the updated table and the id handed back to the caller.
Note that no other row's is_default is touched. -/
def saveConfig (e : String → String) (table : List ConfigRow)
    (config : StorageConfig) : List ConfigRow × Nat :=
  let cleaned := sanitizeForEngine config
  let encryptedPassword := encField e cleaned.password
  let encryptedPrivateKey := encField e cleaned.privateKey
  let encryptedPassphrase := encField e cleaned.passphrase
  let encryptedCA := encField e cleaned.ca
  let encryptedCert := encField e cleaned.cert
  let encryptedKey := encField e cleaned.key
  match table.find? (fun r => r.engine == cleaned.engine && r.name == cleaned.name) with
  | some row =>
      (table.map (fun r =>
        if r.id = row.id then
          { r with
            host := cleaned.host, port := cleaned.port,
            username := cleaned.username, password := encryptedPassword,
            database := cleaned.database, filePath := cleaned.filePath,
            useSSL := cleaned.useSSL, useSSH := cleaned.useSSH,
            sshHost := cleaned.sshHost, sshPort := cleaned.sshPort,
            sshUser := cleaned.sshUser, privateKey := encryptedPrivateKey,
            passphrase := encryptedPassphrase, ca := encryptedCA,
            cert := encryptedCert, key := encryptedKey,
            configured := cleaned.configured.getD true,
            is_default := cleaned.is_default.getD false }
        else r), row.id)
  | none =>
      let newId := nextConfigId table
      let newRow : ConfigRow :=
        { id := newId, engine := cleaned.engine, name := cleaned.name,
          host := cleaned.host, port := cleaned.port,
          username := cleaned.username, password := encryptedPassword,
          database := cleaned.database, filePath := cleaned.filePath,
          useSSL := cleaned.useSSL, useSSH := cleaned.useSSH,
          sshHost := cleaned.sshHost, sshPort := cleaned.sshPort,
          sshUser := cleaned.sshUser, privateKey := encryptedPrivateKey,
          passphrase := encryptedPassphrase, ca := encryptedCA,
          cert := encryptedCert, key := encryptedKey,
          configured := cleaned.configured.getD true,
          is_default := cleaned.is_default.getD false }
      (table ++ [newRow], newId)

/-- Embedding of ConfigManager.setDefaultConfig (config.js lines 402-425):
first UPDATE database_configs SET is_default = 0 on every row, then
UPDATE ... SET is_default = 1 WHERE engine = ?. -/
def setDefaultConfig (table : List ConfigRow) (engine : String) : List ConfigRow :=
  (table.map (fun r => { r with is_default := false })).map
    (fun r => if r.engine == some engine then { r with is_default := true } else r)

/-- Embedding of ConfigManager.ensureDefaultConfig (config.js lines 68-102):
insert one baseline sqlite row iff no sqlite row exists; the baseline row is
explicitly not made default. -/
def ensureDefaultConfig (table : List ConfigRow) : List ConfigRow :=
  let baselineRow : ConfigRow :=
    { id := nextConfigId table, engine := some "sqlite",
      name := some "SQLite (Default)", host := none, port := none,
      username := none, password := none, database := none,
      filePath := some defaultSQLitePath, useSSL := false, useSSH := false,
      sshHost := none, sshPort := none, sshUser := none, privateKey := none,
      passphrase := none, ca := none, cert := none, key := none,
      configured := true, is_default := false }
  if table.any (fun r => r.engine == some "sqlite") then table
  else table ++ [baselineRow]

/-- Number of rows of the catalog currently flagged is_default. -/
def countDefaults (table : List ConfigRow) : Nat :=
  (table.filter (fun r => r.is_default)).length

/-- Embedding of ConfigManager.getAllConfigs (config.js lines 259-300):
every row is mapped to a config object with the six secret columns decrypted
and the result sanitized; app.get('/api/configs') returns this list as the
response body. The id and timestamp fields, which sanitizeForEngine passes
through untouched, are elided; the ORDER BY clause only permutes the list
and is elided as well. -/
def getAllConfigs (d : String → String) (table : List ConfigRow) :
    List StorageConfig :=
  table.map (fun row => sanitizeForEngine
    { engine := row.engine, name := row.name, host := row.host,
      port := row.port, username := row.username,
      password := decField d row.password, database := row.database,
      filePath := row.filePath, useSSL := row.useSSL, useSSH := row.useSSH,
      sshHost := row.sshHost, sshPort := row.sshPort, sshUser := row.sshUser,
      privateKey := decField d row.privateKey,
      passphrase := decField d row.passphrase, ca := decField d row.ca,
      cert := decField d row.cert, key := decField d row.key,
      configured := some row.configured, is_default := some row.is_default })

/-- Concrete cipher used by counterexamples: prepend a marker character.
Its inverse drops that character. Stands for one encrypt call's envelope. -/
def tagEnc (s : String) : String := "x" ++ s

/-- Inverse of tagEnc, standing for the decrypt of a stored envelope. -/
def tagDec (s : String) : String := s.drop 1

/-- Network-engine configuration whose secret password is the concrete
string hunter2, used to exhibit secret echo over /api/configs. -/
def mysqlSecretCfg : StorageConfig :=
  { emptyConfig with
    engine := some "mysql", name := some "prod",
    host := some "db.internal", username := some "root",
    password := some "hunter2", is_default := some true }

/-- Second network-engine configuration saved with is_default set, used to
exhibit two default rows after two saves. -/
def pgSecretCfg : StorageConfig :=
  { emptyConfig with
    engine := some "postgresql", name := some "analytics",
    host := some "pg.internal", username := some "admin",
    password := some "s3cret", is_default := some true }

end Config

/-! ### Document Store (server/database.js, src/unnamed/part_007)

One diagrams table per engine; update and delete decide NotFound by a
zero-affected-row check: this.changes for sqlite (lines 694-714 / 795-811),
result.affectedRows for mysql (lines 716-729 / 813-824), result.rowCount for
postgresql (lines 731-744 / 826-837). -/

namespace Store

/-- Row of the diagrams table (created_at / updated_at timestamps elided:
update touches updated_at but no claim here depends on it; content is the
JSON.stringify of the opaque content blob). -/
structure DiagRow where
  id : String
  title : String
  database_type : String
  content : String
  deriving Repr, DecidableEq

/-- Relational semantics of UPDATE diagrams SET ... WHERE id = ?: every row
matching the id gets the new field values. -/
def updateWhereId (table : List DiagRow) (id title databaseType content : String) :
    List DiagRow :=
  table.map (fun r =>
    if r.id = id then
      { r with title := title, database_type := databaseType, content := content }
    else r)

/-- Relational semantics of DELETE FROM diagrams WHERE id = ?. -/
def deleteWhereId (table : List DiagRow) (id : String) : List DiagRow :=
  table.filter (fun r => r.id ≠ id)

/-- Number of rows matched by WHERE id = ?, which is what this.changes,
result.affectedRows and result.rowCount report for these statements (for an
absent id all three are zero). -/
def affectedById (table : List DiagRow) (id : String) : Nat :=
  (table.filter (fun r => r.id = id)).length

/-- Resolve value of the diagram store calls, { id, title, databaseType,
content }. -/
structure DiagResult where
  id : String
  title : String
  databaseType : String
  content : String
  deriving Repr, DecidableEq

/-- Database.updateDiagramSQLite (part_007 lines 694-714): stmt.run of the
UPDATE, then reject 'Diagram not found' when this.changes === 0, else
resolve. -/
def updateDiagramSQLite (table : List DiagRow)
    (id title databaseType content : String) :
    List DiagRow × Except String DiagResult :=
  (updateWhereId table id title databaseType content,
   if affectedById table id = 0 then .error "Diagram not found"
   else .ok ⟨id, title, databaseType, content⟩)

/-- Database.updateDiagramMySQL (part_007 lines 716-729): connection.execute
of the UPDATE, then throw 'Diagram not found' when result.affectedRows === 0. -/
def updateDiagramMySQL (table : List DiagRow)
    (id title databaseType content : String) :
    List DiagRow × Except String DiagResult :=
  (updateWhereId table id title databaseType content,
   if affectedById table id = 0 then .error "Diagram not found"
   else .ok ⟨id, title, databaseType, content⟩)

/-- Database.updateDiagramPostgres (part_007 lines 731-744): connection.query
of the UPDATE, then throw 'Diagram not found' when result.rowCount === 0. -/
def updateDiagramPostgres (table : List DiagRow)
    (id title databaseType content : String) :
    List DiagRow × Except String DiagResult :=
  (updateWhereId table id title databaseType content,
   if affectedById table id = 0 then .error "Diagram not found"
   else .ok ⟨id, title, databaseType, content⟩)

/-- Database.deleteDiagramSQLite (part_007 lines 795-811): reject 'Diagram
not found' when this.changes === 0, else resolve { id }. -/
def deleteDiagramSQLite (table : List DiagRow) (id : String) :
    List DiagRow × Except String String :=
  (deleteWhereId table id,
   if affectedById table id = 0 then .error "Diagram not found" else .ok id)

/-- Database.deleteDiagramMySQL (part_007 lines 813-824): throw 'Diagram not
found' when result.affectedRows === 0. -/
def deleteDiagramMySQL (table : List DiagRow) (id : String) :
    List DiagRow × Except String String :=
  (deleteWhereId table id,
   if affectedById table id = 0 then .error "Diagram not found" else .ok id)

/-- Database.deleteDiagramPostgres (part_007 lines 826-837): throw 'Diagram
not found' when result.rowCount === 0. -/
def deleteDiagramPostgres (table : List DiagRow) (id : String) :
    List DiagRow × Except String String :=
  (deleteWhereId table id,
   if affectedById table id = 0 then .error "Diagram not found" else .ok id)

/-- One-row table used by concrete witnesses. -/
def sampleTable : List DiagRow :=
  [{ id := "d1", title := "Order Schema", database_type := "generic",
     content := "x" }]

end Store

/-! ### Sync Gateway (server/index.js, src/unnamed/part_009)

Two server paths emit the 'diagram-updated' event for a document update: the
socket.on('diagram-updated') handler (lines 44-61), which broadcasts with
socket.to(room) — every member except the sender — augmenting the payload
with updatedBy = socket.id and passing the client-supplied timestamp
through; and the HTTP app.put('/api/diagrams/:id') handler (lines 140-171),
which emits with io.to(room) — every member of the room, the originator's
socket included — and whose payload carries no updatedBy field at all. -/

namespace Gateway

/-- Fields of the delivered 'diagram-updated' event that the receiving
controller inspects (the opaque title/content/updateData fields are
elided). -/
structure UpdateEvent where
  diagramId : String
  timestamp : Option String
  updatedBy : Option String
  deriving Repr, DecidableEq

/-- Embedding of the socket.on('diagram-updated') broadcast: delivery list
of (recipient socket id, event) pairs produced by socket.to(room).emit. The
handler destructures data into diagramId, timestamp and the rest-spread
updateData, and emits the object literal with updatedBy: socket.id written
BEFORE ...updateData — so when the incoming payload itself carries an
updatedBy key, that value overrides the socket.id augmentation.
updatedByOverride is that key of updateData: none when the payload has no
updatedBy key, some v when it carries one with value v (the other updateData
fields are opaque to the claims and elided). -/
def socketDiagramUpdated (room : List String) (senderId : String)
    (diagramId : String) (timestamp : Option String)
    (updatedByOverride : Option (Option String)) :
    List (String × UpdateEvent) :=
  (room.filter (fun m => m ≠ senderId)).map
    (fun m => (m, { diagramId := diagramId, timestamp := timestamp,
                    updatedBy := updatedByOverride.getD (some senderId) }))

/-- Embedding of the io.to(room).emit in app.put('/api/diagrams/:id'): the
event goes to every member of the room and carries no updatedBy (and no
timestamp field; it carries updatedAt instead, elided here). -/
def putDiagramUpdated (room : List String) (diagramId : String) :
    List (String × UpdateEvent) :=
  room.map (fun m => (m, { diagramId := diagramId, timestamp := none,
                           updatedBy := none }))

end Gateway

/-! ### Client Save/Load Controller (src/components/Workspace.jsx)

The save callback (lines 340-552), the autosave debounce effect (lines
914-964) and the socketService.onDiagramUpdate handler (lines 173-324). -/

namespace Client

/-- Save-state constants referenced by Workspace.jsx (State.SAVING, SAVED,
ERROR, FAILED_TO_LOAD from ../data/constants, a module outside src; NONE
stands for its remaining idle member). -/
inductive SaveSt where
  | NONE
  | SAVING
  | SAVED
  | ERROR
  | FAILED_TO_LOAD
  deriving Repr, DecidableEq

/-- JavaScript value held by the id state: the initial number 0, a backend
string id, a Dexie numeric id, null or undefined. -/
inductive JsId where
  | num (n : Nat)
  | str (s : String)
  | null
  | undef
  deriving Repr, DecidableEq

/-- hasNoDiagramId (Workspace.jsx line 370):
id === 0 || id === '' || id === null || typeof id === 'undefined'. -/
def hasNoDiagramId : JsId → Bool
  | .num n => decide (n = 0)
  | .str s => decide (s = "")
  | .null => true
  | .undef => true

/-- isPersisted (Workspace.jsx lines 96-99): a string id of positive length
or a positive numeric id. -/
def isPersisted : JsId → Bool
  | .num n => decide (n > 0)
  | .str s => decide (s.length > 0)
  | .null => false
  | .undef => false

/-- Accumulator form of the JavaScript window.name.split(' '). -/
def splitSpaceAux : List Char → List Char → List String
  | [], acc => [String.mk acc.reverse]
  | c :: rest, acc =>
      if c = ' ' then String.mk acc.reverse :: splitSpaceAux rest []
      else splitSpaceAux rest (c :: acc)

/-- op = window.name.split(' ')[0] (Workspace.jsx lines 345-346); the empty
window.name splits to [''] in JavaScript, so op is '' there. -/
def windowOp (w : String) : String := (splitSpaceAux w.data []).headD ""

/-- Client-side state read and written by the save path and the autosave
effect. contentSignature is the JSON fingerprint of the current content
(lines 78-93); lastSavedSignature is lastSavedSignatureRef.current. -/
structure ClientState where
  id : JsId
  windowName : String
  saveState : SaveSt
  contentSignature : String
  lastSavedSignature : String
  isInitialLoad : Bool
  justCreated : Bool
  isReloading : Bool
  isLoadingDiagram : Bool
  recentDatabaseSwitch : Bool
  useBackendStorage : Bool
  backendAvailable : Bool
  deriving Repr, DecidableEq

/-- Storage calls issued by one run of save(); updateCall/createCall are the
backend network writes (PUT /api/diagrams/:id and POST /api/diagrams),
localAdd/localUpdate the Dexie fallback writes, templateUpdate the template
table write. -/
inductive NetCall where
  | updateCall (id : JsId)
  | createCall
  | localAdd
  | localUpdate
  | templateUpdate
  deriving Repr, DecidableEq

/-- Shape of a rejected axios call as save() inspects it:
error.response?.status. -/
structure JsError where
  status : Option Nat
  deriving Repr, DecidableEq

deriving instance DecidableEq for Except

/-- Outcomes of the external calls save() can make, fixed up front so that
the embedding is a pure function. -/
structure SaveOracle where
  updateOutcome : Except JsError Unit
  createOutcome : Except JsError String
  localAddId : Nat
  localOk : Bool
  templateOk : Bool
  deriving Repr, DecidableEq

/-- Embedding of the save callback (Workspace.jsx lines 340-552). Returns
the successor state and the list of storage calls, in order. The socket
joinDiagram/emitDiagramUpdate side effects and the searchParams/gist and
lastSaved bookkeeping are elided; both create paths record the new id in the
id state and in window.name, the primary create additionally sets
justCreated. A 404 from the update call is retried exactly once as a create
(lines 415-439); any other failure reaches the outer catch and sets ERROR. -/
def save (st : ClientState) (o : SaveOracle) : ClientState × List NetCall :=
  if st.saveState ≠ SaveSt.SAVING then (st, [])
  else
    let op := windowOp st.windowName
    if st.windowName = "" ∨ op = "d" ∨ op = "lt" then
      if st.useBackendStorage ∧ st.backendAvailable then
        if op = "lt" ∨ (hasNoDiagramId st.id ∨ st.windowName = "") then
          match o.createOutcome with
          | .ok newId =>
              ({ st with
                 id := .str newId, windowName := "d " ++ newId,
                 saveState := .SAVED, lastSavedSignature := st.contentSignature,
                 isInitialLoad := false, justCreated := true }, [.createCall])
          | .error _ => ({ st with saveState := .ERROR }, [.createCall])
        else
          match o.updateOutcome with
          | .ok _ =>
              ({ st with
                 saveState := .SAVED,
                 lastSavedSignature := st.contentSignature },
               [.updateCall st.id])
          | .error e =>
              if e.status = some 404 then
                match o.createOutcome with
                | .ok newId =>
                    ({ st with
                       id := .str newId, windowName := "d " ++ newId,
                       saveState := .SAVED,
                       lastSavedSignature := st.contentSignature,
                       isInitialLoad := false },
                     [.updateCall st.id, .createCall])
                | .error _ =>
                    ({ st with saveState := .ERROR },
                     [.updateCall st.id, .createCall])
              else ({ st with saveState := .ERROR }, [.updateCall st.id])
      else
        if (st.id = .num 0 ∧ st.windowName = "") ∨ op = "lt" then
          if o.localOk then
            ({ st with
               id := .num o.localAddId,
               windowName := "d " ++ toString o.localAddId,
               saveState := .SAVED, lastSavedSignature := st.contentSignature,
               isInitialLoad := false }, [.localAdd])
          else ({ st with saveState := .ERROR }, [.localAdd])
        else
          if o.localOk then
            ({ st with
               saveState := .SAVED,
               lastSavedSignature := st.contentSignature }, [.localUpdate])
          else ({ st with saveState := .ERROR }, [.localUpdate])
    else
      if o.templateOk then ({ st with saveState := .SAVED }, [.templateUpdate])
      else ({ st with saveState := .ERROR }, [.templateUpdate])

/-- Embedding of the autosave debounce effect (Workspace.jsx lines 914-964):
whether the effect will (after the 800ms debounce) set saveState to SAVING.
The guards, in source order: the diagram must be persisted, no initial load
or in-flight save, no diagram load, no recent database switch, autosave
enabled in settings, and the content signature must differ from the last
saved signature. -/
def autosaveTriggers (st : ClientState) (autosave : Bool) : Bool :=
  if !isPersisted st.id then false
  else if st.isInitialLoad || (st.saveState == SaveSt.SAVING) then false
  else if st.isLoadingDiagram then false
  else if st.recentDatabaseSwitch then false
  else if autosave then
    if st.contentSignature == st.lastSavedSignature then false else true
  else false

/-- One autosave cycle: the debounce effect either fires — setting SAVING,
upon which the saveState effect (lines 966-970) runs save() — or leaves the
state untouched. -/
def autosaveStep (st : ClientState) (autosave : Bool) (o : SaveOracle) :
    ClientState × List NetCall :=
  if autosaveTriggers st autosave then
    save { st with saveState := SaveSt.SAVING } o
  else (st, [])

/-- Number of backend network writes among the issued calls. -/
def netWrites (calls : List NetCall) : Nat :=
  (calls.filter (fun c => match c with
    | .updateCall _ => true
    | .createCall => true
    | _ => false)).length

/-- Action taken by the socketService.onDiagramUpdate handler (Workspace.jsx
lines 173-324) for a received event. -/
inductive RemoteUpdateAction where
  | ignore
  | autoReload
  | promptReload
  deriving Repr, DecidableEq

/-- Embedding of the onDiagramUpdate handler: the event is processed only
when data.updatedBy is truthy and strictly different from the client's own
socket id (undefined when disconnected); then settings decide between the
automatic reload and the user-facing prompt; otherwise the event is ignored
(line 181 and the else at lines 321-323). -/
def onDiagramUpdate (updatedBy : Option String)
    (currentSocketId : Option String) (isLoaded : Bool)
    (autoUpdateOnCollaboration : Bool) : RemoteUpdateAction :=
  if Config.truthyStr updatedBy ∧ updatedBy ≠ currentSocketId then
    if isLoaded ∧ autoUpdateOnCollaboration then .autoReload
    else .promptReload
  else .ignore

/-- A clean state: an existing backend document, just saved, signature
recorded. -/
def cleanState : ClientState :=
  { id := .str "d1", windowName := "d d1", saveState := .SAVED,
    contentSignature := "sigA", lastSavedSignature := "sigA",
    isInitialLoad := false, justCreated := false, isReloading := false,
    isLoadingDiagram := false, recentDatabaseSwitch := false,
    useBackendStorage := true, backendAvailable := true }

/-- The clean state after one local edit: content signature differs from the
recorded one. -/
def dirtyState : ClientState := { cleanState with contentSignature := "sigB" }

/-- Oracle where the backend update succeeds. -/
def okOracle : SaveOracle :=
  { updateOutcome := .ok (), createOutcome := .ok "d9", localAddId := 7,
    localOk := true, templateOk := true }

/-- Oracle where the update is rejected with HTTP 404 and the fallback
create succeeds with a fresh id. -/
def notFoundOracle : SaveOracle :=
  { updateOutcome := .error { status := some 404 },
    createOutcome := .ok "d9", localAddId := 7, localOk := true,
    templateOk := true }

/-- Oracle where the update fails with HTTP 500. -/
def serverErrorOracle : SaveOracle :=
  { updateOutcome := .error { status := some 500 },
    createOutcome := .ok "d9", localAddId := 7, localOk := true,
    templateOk := true }

end Client

/-! ### Connection Manager testConnection (src/server/db/config.js)

createSSHTunnel (lines 680-717) stores the opened SSH client and forwarded
stream in this.sshTunnel; testMySQLConnection (lines 780-832) opens an
optional tunnel and a MySQL connection, runs the bootstrap DDL, and in its
finally block ends the MySQL connection and closes the forwarded stream —
but never ends the SSH client and never clears this.sshTunnel. -/

namespace Conn

/-- Fields of the tested configuration that drive the control flow. -/
structure TestConfig where
  engine : String
  useSSH : Bool
  useSSL : Bool
  deriving Repr, DecidableEq

/-- The this.sshTunnel value: the SSH client and the forwarded stream. -/
structure Tunnel where
  client : Nat
  stream : Nat
  deriving Repr, DecidableEq

/-- The ConnectionManager instance fields. -/
structure ManagerState where
  currentConnection : Option Nat
  connectionConfig : Option TestConfig
  sshTunnel : Option Tunnel
  deriving Repr, DecidableEq

/-- Live OS-level handles: a fresh-handle counter and the handles currently
open. -/
structure World where
  nextHandle : Nat
  openHandles : List Nat
  deriving Repr, DecidableEq

/-- Open a fresh handle. -/
def alloc (w : World) : Nat × World :=
  (w.nextHandle,
   { nextHandle := w.nextHandle + 1,
     openHandles := w.nextHandle :: w.openHandles })

/-- Close a handle. -/
def closeHandle (w : World) (h : Nat) : World :=
  { w with openHandles := w.openHandles.filter (fun x => x ≠ h) }

/-- Outcome of the SSH handshake and port forward. -/
inductive TunnelOutcome where
  | connectError
  | forwardError
  | ok
  deriving Repr, DecidableEq

/-- Outcomes of the external calls testMySQLConnection makes. -/
structure TestOracle where
  tunnel : TunnelOutcome
  connectOk : Bool
  queriesOk : Bool
  deriving Repr, DecidableEq

/-- Embedding of ConnectionManager.createSSHTunnel (config.js lines
680-717). On success the SSH client connection and the forwarded stream are
both open and recorded in this.sshTunnel; when forwardOut fails the handler
calls sshClient.end() before rejecting; when the handshake itself errors no
connection was established. -/
def createSSHTunnel (st : ManagerState) (w : World) (o : TunnelOutcome) :
    Except String Tunnel × ManagerState × World :=
  match o with
  | .connectError => (.error "ssh connect error", st, w)
  | .forwardError =>
      let (c, w1) := alloc w
      (.error "ssh forward error", st, closeHandle w1 c)
  | .ok =>
      let (c, w1) := alloc w
      let (s, w2) := alloc w1
      (.ok { client := c, stream := s },
       { st with sshTunnel := some { client := c, stream := s } }, w2)

/-- Embedding of ConnectionManager.testMySQLConnection (config.js lines
780-832): optional tunnel, MySQL connection, bootstrap DDL; the finally
block ends the MySQL connection (when one was opened) and closes the local
sshTunnel variable — the forwarded stream only, never the SSH client. -/
def testMySQLConnection (st : ManagerState) (w : World) (cfg : TestConfig)
    (o : TestOracle) : Except String String × ManagerState × World :=
  if cfg.useSSH then
    match createSSHTunnel st w o.tunnel with
    | (.error msg, st1, w1) => (.error msg, st1, w1)
    | (.ok tun, st1, w1) =>
        if o.connectOk then
          let (conn, w2) := alloc w1
          if o.queriesOk then
            (.ok "MySQL connection successful", st1,
             closeHandle (closeHandle w2 conn) tun.stream)
          else
            (.error "query failed", st1,
             closeHandle (closeHandle w2 conn) tun.stream)
        else
          (.error "MySQL connection failed", st1, closeHandle w1 tun.stream)
  else
    if o.connectOk then
      let (conn, w1) := alloc w
      if o.queriesOk then
        (.ok "MySQL connection successful", st, closeHandle w1 conn)
      else (.error "query failed", st, closeHandle w1 conn)
    else (.error "MySQL connection failed", st, w)

end Conn

namespace Vault

/-! ### Vault lemmas and the round-trip theorem (claim C4) -/

theorem bytesToHex_cons (b : Nat) (bs : List Nat) :
    bytesToHex (b :: bs) = byteToHex b ++ bytesToHex bs := rfl

theorem hexVal_hexDigit (n : Nat) (h : n < 16) : hexVal (hexDigit n) = n := by
  unfold hexDigit hexVal
  by_cases h10 : n < 10
  · rw [if_pos h10, if_pos (by omega)]
    omega
  · rw [if_neg h10, if_neg (by omega), if_pos (by omega)]
    omega

theorem hexDigit_ne_colon (n : Nat) : hexDigit n ≠ colon := by
  unfold hexDigit colon
  split <;> omega

theorem mem_bytesToHex_ne_colon (bs : List Nat) :
    ∀ x ∈ bytesToHex bs, x ≠ colon := by
  induction bs with
  | nil => intro x hx; simp [bytesToHex] at hx
  | cons b rest ih =>
      intro x hx
      rw [bytesToHex_cons] at hx
      rcases List.mem_append.mp hx with h | h
      · have : x = hexDigit (b / 16) ∨ x = hexDigit (b % 16) := by
          simpa [byteToHex] using h
        rcases this with h | h
        · exact h ▸ hexDigit_ne_colon _
        · exact h ▸ hexDigit_ne_colon _
      · exact ih x h

theorem hexToBytes_bytesToHex (bs : List Nat) (h : ∀ x ∈ bs, x < 256) :
    hexToBytes (bytesToHex bs) = bs := by
  induction bs with
  | nil => rfl
  | cons b rest ih =>
      have hb : b < 256 := h b (by simp)
      rw [bytesToHex_cons]
      show hexToBytes (hexDigit (b / 16) :: hexDigit (b % 16) :: bytesToHex rest)
        = b :: rest
      rw [hexToBytes]
      rw [hexVal_hexDigit _ (by omega), hexVal_hexDigit _ (by omega),
        ih (fun x hx => h x (by simp [hx]))]
      have hdm : 16 * (b / 16) + b % 16 = b := by omega
      rw [hdm]

theorem splitColonAux_no_colon (s : List Nat) (h : ∀ x ∈ s, x ≠ colon) :
    ∀ acc, splitColonAux s acc = [acc.reverse ++ s] := by
  induction s with
  | nil => intro acc; simp [splitColonAux]
  | cons c rest ih =>
      intro acc
      rw [splitColonAux, if_neg (h c (by simp))]
      rw [ih (fun x hx => h x (by simp [hx]))]
      simp

theorem splitColonAux_append (a b : List Nat) (ha : ∀ x ∈ a, x ≠ colon)
    (hb : ∀ x ∈ b, x ≠ colon) :
    ∀ acc, splitColonAux (a ++ colon :: b) acc = [acc.reverse ++ a, b] := by
  induction a with
  | nil =>
      intro acc
      rw [List.nil_append, splitColonAux, if_pos rfl,
        splitColonAux_no_colon b hb []]
      simp
  | cons c rest ih =>
      intro acc
      rw [List.cons_append, splitColonAux, if_neg (ha c (by simp))]
      rw [ih (fun x hx => ha x (by simp [hx]))]
      simp

theorem splitColon_envelope (a b : List Nat) (ha : ∀ x ∈ a, x ≠ colon)
    (hb : ∀ x ∈ b, x ≠ colon) :
    splitColon (a ++ colon :: b) = [a, b] := by
  rw [splitColon, splitColonAux_append a b ha hb []]
  simp

theorem getLast?_append_replicate (bs : List Nat) (k x : Nat) (h : k ≠ 0) :
    (bs ++ List.replicate k x).getLast? = some x := by
  rw [List.getLast?_eq_head?_reverse, List.reverse_append, List.reverse_replicate]
  cases k with
  | zero => exact absurd rfl h
  | succ n => simp [List.replicate_succ]

theorem pkcs7unpad_pkcs7pad (bs : List Nat) : pkcs7unpad (pkcs7pad bs) = bs := by
  have hk : 16 - bs.length % 16 ≠ 0 := by omega
  simp only [pkcs7unpad, pkcs7pad, getLast?_append_replicate _ _ _ hk,
    List.length_append, List.length_replicate]
  rw [show bs.length + (16 - bs.length % 16) - (16 - bs.length % 16) = bs.length from by omega]
  exact List.take_left bs _

theorem pkcs7pad_length_mod (bs : List Nat) : (pkcs7pad bs).length % 16 = 0 := by
  rw [pkcs7pad, List.length_append, List.length_replicate]
  omega

theorem pkcs7pad_bytes (bs : List Nat) (h : ∀ x ∈ bs, x < 256) :
    ∀ x ∈ pkcs7pad bs, x < 256 := by
  intro x hx
  rcases List.mem_append.mp hx with hm | hm
  · exact h x hm
  · have := (List.eq_of_mem_replicate hm)
    omega

theorem chunks16_flatten (bs : List Nat) : (chunks16 bs).flatten = bs := by
  have H : ∀ n (bs : List Nat), bs.length ≤ n → (chunks16 bs).flatten = bs := by
    intro n
    induction n with
    | zero =>
        intro bs hb
        have hnil : bs = [] := by cases bs with
          | nil => rfl
          | cons a l => simp at hb
        rw [hnil, chunks16]
        simp
    | succ n ih =>
        intro bs hb
        by_cases h : bs = []
        · rw [h, chunks16]; simp
        · rw [chunks16, dif_neg h, List.flatten_cons,
            ih _ (by have := List.length_pos.mpr h; simp [List.length_drop]; omega)]
          exact List.take_append_drop 16 bs
  exact H bs.length bs le_rfl

theorem chunks16_blocklen (bs : List Nat) (hdvd : bs.length % 16 = 0) :
    ∀ c ∈ chunks16 bs, c.length = 16 := by
  have H : ∀ n (bs : List Nat), bs.length ≤ n → bs.length % 16 = 0 →
      ∀ c ∈ chunks16 bs, c.length = 16 := by
    intro n
    induction n with
    | zero =>
        intro bs hb _ c hc
        have hnil : bs = [] := by cases bs with
          | nil => rfl
          | cons a l => simp at hb
        rw [hnil, chunks16] at hc
        simp at hc
    | succ n ih =>
        intro bs hb hmod c hc
        by_cases h : bs = []
        · rw [h, chunks16] at hc; simp at hc
        · rw [chunks16, dif_neg h] at hc
          have hpos : 0 < bs.length := List.length_pos.mpr h
          have hge : 16 ≤ bs.length := by omega
          rcases List.mem_cons.mp hc with hc | hc
          · subst hc
            rw [List.length_take]
            omega
          · exact ih (bs.drop 16) (by simp [List.length_drop]; omega)
              (by simp [List.length_drop]; omega) c hc
  exact H bs.length bs le_rfl hdvd

theorem chunks16_mem_mem (bs : List Nat) :
    ∀ c ∈ chunks16 bs, ∀ x ∈ c, x ∈ bs := by
  have H : ∀ n (bs : List Nat), bs.length ≤ n →
      ∀ c ∈ chunks16 bs, ∀ x ∈ c, x ∈ bs := by
    intro n
    induction n with
    | zero =>
        intro bs hb c hc
        have hnil : bs = [] := by cases bs with
          | nil => rfl
          | cons a l => simp at hb
        rw [hnil, chunks16] at hc
        simp at hc
    | succ n ih =>
        intro bs hb c hc x hx
        by_cases h : bs = []
        · rw [h, chunks16] at hc; simp at hc
        · rw [chunks16, dif_neg h] at hc
          rcases List.mem_cons.mp hc with hc | hc
          · exact List.take_subset 16 bs (hc ▸ hx)
          · exact List.drop_subset 16 bs
              (ih (bs.drop 16)
                (by have := List.length_pos.mpr h; simp [List.length_drop]; omega)
                c hc x hx)
  exact H bs.length bs le_rfl

theorem chunks16_of_flatten (blocks : List (List Nat))
    (h : ∀ c ∈ blocks, c.length = 16) :
    chunks16 blocks.flatten = blocks := by
  induction blocks with
  | nil => rw [List.flatten_nil, chunks16]; simp
  | cons b rest ih =>
      have hb : b.length = 16 := h b (by simp)
      have hbne : b ≠ [] := by
        intro hcontra
        rw [hcontra] at hb
        simp at hb
      have htake : List.take 16 (b ++ rest.flatten) = b := by
        rw [← hb]
        exact List.take_left b _
      have hdrop : List.drop 16 (b ++ rest.flatten) = rest.flatten := by
        rw [← hb]
        exact List.drop_left b _
      rw [List.flatten_cons, chunks16,
        dif_neg (by simp [hbne] : ¬b ++ rest.flatten = []), htake]
      show b :: chunks16 (List.drop 16 (b ++ rest.flatten)) = b :: rest
      rw [hdrop, ih (fun c hc => h c (by simp [hc]))]

theorem xorBytes_length (a b : List Nat) :
    (xorBytes a b).length = min a.length b.length := by
  simp [xorBytes]

theorem xorBytes_cancel (a b : List Nat) (h : a.length = b.length) :
    xorBytes (xorBytes a b) b = a := by
  induction a generalizing b with
  | nil => simp [xorBytes]
  | cons x xs ih =>
      cases b with
      | nil => simp at h
      | cons y ys =>
          simp only [xorBytes, List.zipWith_cons_cons]
          rw [Nat.xor_cancel_right]
          have h2 := ih ys (by simpa using h)
          simp only [xorBytes] at h2
          rw [h2]

theorem xorBytes_bytes (a b : List Nat) (ha : ∀ x ∈ a, x < 256)
    (hb : ∀ x ∈ b, x < 256) : ∀ x ∈ xorBytes a b, x < 256 := by
  induction a generalizing b with
  | nil => simp [xorBytes]
  | cons x xs ih =>
      cases b with
      | nil => simp [xorBytes]
      | cons y ys =>
          intro z hz
          simp only [xorBytes, List.zipWith_cons_cons] at hz
          rcases List.mem_cons.mp hz with hz | hz
          · have hx : x < 256 := ha x (by simp)
            have hy : y < 256 := hb y (by simp)
            have h2 : x ^^^ y < 2 ^ 8 := Nat.xor_lt_two_pow (by simpa using hx) (by simpa using hy)
            subst hz
            simpa using h2
          · exact ih ys (fun w hw => ha w (by simp [hw]))
              (fun w hw => hb w (by simp [hw])) z hz

theorem cbcEncBlocks_facts (E : List Nat → List Nat)
    (hElen : ∀ b, b.length = 16 → (∀ x ∈ b, x < 256) → (E b).length = 16)
    (hEbyte : ∀ b, b.length = 16 → (∀ x ∈ b, x < 256) → ∀ x ∈ E b, x < 256)
    (blocks : List (List Nat)) :
    ∀ prev, prev.length = 16 → (∀ x ∈ prev, x < 256) →
    (∀ c ∈ blocks, c.length = 16) → (∀ c ∈ blocks, ∀ x ∈ c, x < 256) →
    ∀ c ∈ cbcEncBlocks E prev blocks, c.length = 16 ∧ ∀ x ∈ c, x < 256 := by
  induction blocks with
  | nil => intro prev _ _ _ _ c hc; simp [cbcEncBlocks] at hc
  | cons b rest ih =>
      intro prev hprev hprevb hlen hbyte c hc
      have hb16 : b.length = 16 := hlen b (by simp)
      have hbb : ∀ x ∈ b, x < 256 := hbyte b (by simp)
      have hxlen : (xorBytes b prev).length = 16 := by
        rw [xorBytes_length]; omega
      have hxbyte : ∀ x ∈ xorBytes b prev, x < 256 := xorBytes_bytes b prev hbb hprevb
      simp only [cbcEncBlocks] at hc
      rcases List.mem_cons.mp hc with hc | hc
      · subst hc
        exact ⟨hElen _ hxlen hxbyte, hEbyte _ hxlen hxbyte⟩
      · exact ih (E (xorBytes b prev)) (hElen _ hxlen hxbyte) (hEbyte _ hxlen hxbyte)
          (fun d hd => hlen d (by simp [hd])) (fun d hd => hbyte d (by simp [hd])) c hc

theorem cbcDec_cbcEnc (E D : List Nat → List Nat)
    (hED : ∀ b, b.length = 16 → (∀ x ∈ b, x < 256) → D (E b) = b)
    (hElen : ∀ b, b.length = 16 → (∀ x ∈ b, x < 256) → (E b).length = 16)
    (hEbyte : ∀ b, b.length = 16 → (∀ x ∈ b, x < 256) → ∀ x ∈ E b, x < 256)
    (blocks : List (List Nat)) :
    ∀ prev, prev.length = 16 → (∀ x ∈ prev, x < 256) →
    (∀ c ∈ blocks, c.length = 16) → (∀ c ∈ blocks, ∀ x ∈ c, x < 256) →
    cbcDecBlocks D prev (cbcEncBlocks E prev blocks) = blocks := by
  induction blocks with
  | nil => intro prev _ _ _ _; rfl
  | cons b rest ih =>
      intro prev hprev hprevb hlen hbyte
      have hb16 : b.length = 16 := hlen b (by simp)
      have hbb : ∀ x ∈ b, x < 256 := hbyte b (by simp)
      have hxlen : (xorBytes b prev).length = 16 := by
        rw [xorBytes_length]; omega
      have hxbyte : ∀ x ∈ xorBytes b prev, x < 256 := xorBytes_bytes b prev hbb hprevb
      simp only [cbcEncBlocks, cbcDecBlocks]
      rw [hED _ hxlen hxbyte, xorBytes_cancel b prev (by omega)]
      rw [ih (E (xorBytes b prev)) (hElen _ hxlen hxbyte) (hEbyte _ hxlen hxbyte)
        (fun d hd => hlen d (by simp [hd])) (fun d hd => hbyte d (by simp [hd]))]

theorem decrypt_two_parts (D : List Nat → List Nat) (a b env : List Nat)
    (henv : env ≠ []) (hsplit : splitColon env = [a, b]) :
    decrypt D env
      = pkcs7unpad ((cbcDecBlocks D (hexToBytes a) (chunks16 (hexToBytes b))).flatten) := by
  rw [decrypt, if_neg henv]
  simp only [hsplit]
  rw [if_pos (by simp)]
  simp [List.getD]

theorem encrypt_empty (E : List Nat → List Nat) (iv : List Nat) :
    encrypt E iv [] = [] := by
  simp [encrypt]

/-- C4: for the Credential Vault (ConfigManager), decrypt(encrypt(s)) = s for
every non-empty string s (modelled by its utf8 byte sequence) under the same
deployment key (modelled by an abstract keyed 16-byte block permutation E
with inverse D), for every fresh 16-byte iv; and encrypt(empty) = empty, a
no-op rather than an error, even though encrypt draws a fresh random iv per
call (the iv is an explicit argument, so the statement holds for all draws). -/
theorem claim_C4_vault_roundtrip (E D : List Nat → List Nat) (iv s : List Nat)
    (hED : ∀ b, b.length = 16 → (∀ x ∈ b, x < 256) → D (E b) = b)
    (hElen : ∀ b, b.length = 16 → (∀ x ∈ b, x < 256) → (E b).length = 16)
    (hEbyte : ∀ b, b.length = 16 → (∀ x ∈ b, x < 256) → ∀ x ∈ E b, x < 256)
    (hiv : iv.length = 16) (hivb : ∀ x ∈ iv, x < 256)
    (hsb : ∀ x ∈ s, x < 256) (hs : s ≠ []) :
    decrypt D (encrypt E iv s) = s ∧ encrypt E iv [] = [] := by
  refine ⟨?_, encrypt_empty E iv⟩
  have hpadb : ∀ x ∈ pkcs7pad s, x < 256 := pkcs7pad_bytes s hsb
  have hpadmod : (pkcs7pad s).length % 16 = 0 := pkcs7pad_length_mod s
  have hblen : ∀ c ∈ chunks16 (pkcs7pad s), c.length = 16 :=
    chunks16_blocklen _ hpadmod
  have hbbyte : ∀ c ∈ chunks16 (pkcs7pad s), ∀ x ∈ c, x < 256 :=
    fun c hc x hx => hpadb x (chunks16_mem_mem _ c hc x hx)
  have hctfacts : ∀ c ∈ cbcEncBlocks E iv (chunks16 (pkcs7pad s)),
      c.length = 16 ∧ ∀ x ∈ c, x < 256 :=
    cbcEncBlocks_facts E hElen hEbyte _ iv hiv hivb hblen hbbyte
  have hctlen : ∀ c ∈ cbcEncBlocks E iv (chunks16 (pkcs7pad s)), c.length = 16 :=
    fun c hc => (hctfacts c hc).1
  have hctbyte : ∀ x ∈ (cbcEncBlocks E iv (chunks16 (pkcs7pad s))).flatten, x < 256 := by
    intro x hx
    rcases List.mem_flatten.mp hx with ⟨c, hc, hxc⟩
    exact (hctfacts c hc).2 x hxc
  have henc : encrypt E iv s = bytesToHex iv ++ colon ::
      bytesToHex (cbcEncBlocks E iv (chunks16 (pkcs7pad s))).flatten := by
    rw [encrypt, if_neg hs]
  have hne : encrypt E iv s ≠ [] := by
    rw [henc]
    simp
  have hsplit : splitColon (encrypt E iv s)
      = [bytesToHex iv, bytesToHex (cbcEncBlocks E iv (chunks16 (pkcs7pad s))).flatten] := by
    rw [henc]
    exact splitColon_envelope _ _ (mem_bytesToHex_ne_colon iv) (mem_bytesToHex_ne_colon _)
  rw [decrypt_two_parts D _ _ _ hne hsplit]
  rw [hexToBytes_bytesToHex iv hivb, hexToBytes_bytesToHex _ hctbyte]
  rw [chunks16_of_flatten _ hctlen]
  rw [cbcDec_cbcEnc E D hED hElen hEbyte _ iv hiv hivb hblen hbbyte]
  rw [chunks16_flatten, pkcs7unpad_pkcs7pad]

theorem flipBlock_invol (b : List Nat) (hb : ∀ x ∈ b, x < 256) :
    flipBlock (flipBlock b) = b := by
  rw [flipBlock, flipBlock, List.map_map]
  have h : ∀ x ∈ b, (flipByte ∘ flipByte) x = x := by
    intro x hx
    have := hb x hx
    simp only [Function.comp_apply, flipByte]
    omega
  calc b.map (flipByte ∘ flipByte) = b.map id := List.map_congr_left h
    _ = b := List.map_id b

theorem flipBlock_length (b : List Nat) (h : b.length = 16) :
    (flipBlock b).length = 16 := by
  simp [flipBlock, h]

theorem flipBlock_bytes (b : List Nat) : ∀ x ∈ flipBlock b, x < 256 := by
  intro x hx
  rcases List.mem_map.mp hx with ⟨w, _, hw⟩
  rw [← hw]
  simp only [flipByte]
  omega

/-- Witness for C4: the round trip evaluated at the concrete involutive block
permutation flipBlock, the zero iv, and the sample two-byte secret. -/
theorem claim_C4_vault_roundtrip_witness :
    decrypt flipBlock (encrypt flipBlock ivZero sampleSecret) = sampleSecret
      ∧ encrypt flipBlock ivZero [] = [] :=
  claim_C4_vault_roundtrip flipBlock flipBlock ivZero sampleSecret
    (fun b _ hb => flipBlock_invol b hb)
    (fun b hlen _ => flipBlock_length b hlen)
    (fun b _ _ => flipBlock_bytes b)
    (by decide) (by decide) (by decide) (by decide)

end Vault

/-- Char.ofNat recovers its argument for any codepoint below the surrogate
range, covering the ASCII arithmetic of the lowercase conversion. -/
theorem toNat_ofNat_valid (n : Nat) (h : n < 55296) : (Char.ofNat n).toNat = n := by
  have hv : n.isValidChar := Or.inl h
  rw [Char.ofNat, dif_pos hv]
  rw [Char.ofNatAux, Char.toNat]
  simp [UInt32.toNat, BitVec.toNat_ofNatLt]

namespace Config

/-! ### Configuration Store lemmas (claims C1, C3, C8) -/

theorem jsLowerChar_idem (c : Char) : jsLowerChar (jsLowerChar c) = jsLowerChar c := by
  unfold jsLowerChar
  by_cases h : 65 ≤ c.toNat ∧ c.toNat ≤ 90
  · rw [if_pos h]
    have ht : (Char.ofNat (c.toNat + 32)).toNat = c.toNat + 32 :=
      toNat_ofNat_valid _ (by omega)
    rw [if_neg (by rw [ht]; omega)]
  · rw [if_neg h, if_neg h]

theorem jsToLower_idem (s : String) : jsToLower (jsToLower s) = jsToLower s := by
  show String.mk ((s.data.map jsLowerChar).map jsLowerChar) = String.mk (s.data.map jsLowerChar)
  rw [List.map_map]
  congr 1
  apply List.map_congr_left
  intro x _
  exact jsLowerChar_idem x

/-- C8: sanitizeForEngine is idempotent on every configuration object, for
every engine value including unknown engines: applying it twice gives the
same result as applying it once. -/
theorem truthyStr_defaultPath : truthyStr (some defaultSQLitePath) = true := by decide

theorem truthyStr_drawdb : truthyStr (some "drawdb") = true := by decide

theorem truthyNat_mysqlPort : truthyNat (some 3306) = true := by decide

theorem truthyNat_pgPort : truthyNat (some 5432) = true := by decide

theorem claim_C8_sanitize_idempotent (c : StorageConfig) :
    sanitizeForEngine (sanitizeForEngine c) = sanitizeForEngine c := by
  unfold sanitizeForEngine
  simp only [Option.getD_some]
  by_cases h1 : jsToLower (c.engine.getD "") = "sqlite"
  · by_cases h2 : truthyStr c.filePath
    · simp +decide [jsToLower_idem, h1, h2]
    · simp +decide [jsToLower_idem, h1, h2, truthyStr_defaultPath]
  · by_cases h2 : jsToLower (c.engine.getD "") = "mysql"
      ∨ jsToLower (c.engine.getD "") = "postgresql"
    · rcases h2 with h2 | h2 <;>
        by_cases h3 : truthyNat c.port <;>
          by_cases h4 : truthyStr c.database <;>
            simp +decide [jsToLower_idem, h1, h2, h3, h4, truthyNat_mysqlPort,
              truthyNat_pgPort, truthyStr_drawdb]
    · simp +decide [jsToLower_idem, h1, h2]

/-- C1 counterexample: starting from the catalog produced by the baseline
bootstrap, two saveConfig calls each carrying is_default leave two rows of
database_configs flagged is_default, because saveConfig never unsets the flag
on other rows. -/
theorem claim_C1_counterexample :
    countDefaults
      ((saveConfig tagEnc
        ((saveConfig tagEnc (ensureDefaultConfig []) mysqlSecretCfg).1)
        pgSecretCfg).1) = 2 := by decide

theorem setDefaultConfig_eq_map (table : List ConfigRow) (e : String) :
    setDefaultConfig table e = table.map (fun r =>
      if r.engine == some e then { r with is_default := true }
      else { r with is_default := false }) := by
  rw [setDefaultConfig, List.map_map]
  apply List.map_congr_left
  intro r _
  by_cases h : r.engine == some e
  · simp [Function.comp, h]
  · simp [Function.comp, h]

theorem countDefaults_setDefaultConfig (table : List ConfigRow) (e : String) :
    countDefaults (setDefaultConfig table e)
      = (table.filter (fun r => r.engine == some e)).length := by
  rw [setDefaultConfig_eq_map]
  induction table with
  | nil => rfl
  | cons r rest ih =>
      by_cases h : r.engine == some e
      · simp only [List.map_cons, countDefaults, List.filter_cons] at ih ⊢
        simp [h] at ih ⊢
        omega
      · simp only [List.map_cons, countDefaults, List.filter_cons] at ih ⊢
        simp [h] at ih ⊢
        omega

/-- C1 amended: saveConfig sets is_default only on the saved row and never
clears it elsewhere, so a sequence of saves with is_default set can leave
several default rows (see the counterexample); the clear-then-set lives in
setDefaultConfig, after which a row is default exactly when its engine
matches the chosen engine — hence at most one default whenever at most one
catalog row carries that engine. -/
theorem claim_C1_amended_default_flag (table : List ConfigRow) (e : String) :
    (∀ r ∈ setDefaultConfig table e, r.is_default = (r.engine == some e))
    ∧ ((table.filter (fun r => r.engine == some e)).length ≤ 1 →
        countDefaults (setDefaultConfig table e) ≤ 1) := by
  constructor
  · intro r hr
    simp only [setDefaultConfig, List.map_map, List.mem_map] at hr
    rcases hr with ⟨r0, _, hr0⟩
    by_cases h : r0.engine == some e
    · simp only [Function.comp, h, if_pos] at hr0
      rw [← hr0]
      simp [h]
    · simp only [Function.comp, h] at hr0
      rw [← hr0]
      simp [h]
  · intro hle
    rw [countDefaults_setDefaultConfig]
    exact hle

/-- Witness for the amended C1 statement, at the bootstrapped catalog and the
sqlite engine. -/
theorem claim_C1_amended_default_flag_witness :
    (∀ r ∈ setDefaultConfig (ensureDefaultConfig []) "sqlite",
      r.is_default = (r.engine == some "sqlite"))
    ∧ countDefaults (setDefaultConfig (ensureDefaultConfig []) "sqlite") ≤ 1 :=
  ⟨(claim_C1_amended_default_flag (ensureDefaultConfig []) "sqlite").1,
    (claim_C1_amended_default_flag (ensureDefaultConfig []) "sqlite").2 (by decide)⟩

/-- C3 counterexample: the password accepted by saveConfig for a mysql
configuration is echoed back in plaintext by the GET /api/configs response
(getAllConfigs decrypts every secret column and sanitizeForEngine keeps the
secrets of network engines). -/
theorem claim_C3_counterexample :
    mysqlSecretCfg.password = some "hunter2"
    ∧ ∃ cfg ∈ getAllConfigs tagDec
        (saveConfig tagEnc (ensureDefaultConfig []) mysqlSecretCfg).1,
        cfg.password = some "hunter2" := by decide

/-- C3 amended: the Configuration API does echo accepted secret values back —
GET /api/configs returns network-engine secrets decrypted (see the
counterexample); only configurations whose engine is the embedded-file
engine sqlite have every secret field blanked by sanitizeForEngine before
the response. -/
theorem sanitize_engine_sqlite_blanks (x : StorageConfig)
    (h : (sanitizeForEngine x).engine = some "sqlite") :
    (sanitizeForEngine x).password = some ""
      ∧ (sanitizeForEngine x).privateKey = some ""
      ∧ (sanitizeForEngine x).passphrase = some ""
      ∧ (sanitizeForEngine x).ca = some ""
      ∧ (sanitizeForEngine x).cert = some ""
      ∧ (sanitizeForEngine x).key = some "" := by
  unfold sanitizeForEngine at h ⊢
  by_cases h1 : jsToLower (x.engine.getD "") = "sqlite"
  · rw [if_pos h1]
    exact ⟨rfl, rfl, rfl, rfl, rfl, rfl⟩
  · exfalso
    rw [if_neg h1] at h
    by_cases h2 : jsToLower (x.engine.getD "") = "mysql"
      ∨ jsToLower (x.engine.getD "") = "postgresql"
    · rw [if_pos h2] at h
      exact h1 (by injection h)
    · rw [if_neg h2] at h
      exact h1 (by injection h)

theorem claim_C3_amended_sqlite_blanked (d : String → String)
    (table : List ConfigRow) :
    ∀ cfg ∈ getAllConfigs d table, cfg.engine = some "sqlite" →
      cfg.password = some "" ∧ cfg.privateKey = some ""
        ∧ cfg.passphrase = some "" ∧ cfg.ca = some ""
        ∧ cfg.cert = some "" ∧ cfg.key = some "" := by
  intro cfg hcfg heng
  simp only [getAllConfigs, List.mem_map] at hcfg
  rcases hcfg with ⟨row, _, hrow⟩
  rw [← hrow] at heng ⊢
  exact sanitize_engine_sqlite_blanks _ heng

/-- Witness for the amended C3 statement: the bootstrapped catalog's sqlite
baseline row comes back with every secret blanked. -/
theorem claim_C3_amended_sqlite_blanked_witness :
    ((getAllConfigs tagDec (ensureDefaultConfig [])).headD emptyConfig).password = some ""
      ∧ ((getAllConfigs tagDec (ensureDefaultConfig [])).headD emptyConfig).privateKey = some ""
      ∧ ((getAllConfigs tagDec (ensureDefaultConfig [])).headD emptyConfig).passphrase = some ""
      ∧ ((getAllConfigs tagDec (ensureDefaultConfig [])).headD emptyConfig).ca = some ""
      ∧ ((getAllConfigs tagDec (ensureDefaultConfig [])).headD emptyConfig).cert = some ""
      ∧ ((getAllConfigs tagDec (ensureDefaultConfig [])).headD emptyConfig).key = some "" :=
  claim_C3_amended_sqlite_blanked tagDec (ensureDefaultConfig [])
    ((getAllConfigs tagDec (ensureDefaultConfig [])).headD emptyConfig)
    (by decide) (by decide)

end Config

namespace Store

/-! ### Document Store theorems (claim C5) -/

theorem affectedById_eq_zero (table : List DiagRow) (id : String)
    (habs : ∀ r ∈ table, r.id ≠ id) : affectedById table id = 0 := by
  induction table with
  | nil => rfl
  | cons r rest ih =>
      have h1 : r.id ≠ id := habs r (by simp)
      have h2 := ih (fun x hx => habs x (by simp [hx]))
      rw [affectedById] at h2 ⊢
      rw [List.filter_cons]
      simp [h1, h2]

/-- C5: on each of the three engines, updateDiagram and deleteDiagram on an
id not present in the diagrams table fail with the 'Diagram not found' error,
decided by the zero-affected-row check (this.changes / affectedRows /
rowCount); none of them reports silent success. -/
theorem claim_C5_update_delete_notfound (table : List DiagRow)
    (id title databaseType content : String)
    (habs : ∀ r ∈ table, r.id ≠ id) :
    (updateDiagramSQLite table id title databaseType content).2
        = .error "Diagram not found"
    ∧ (updateDiagramMySQL table id title databaseType content).2
        = .error "Diagram not found"
    ∧ (updateDiagramPostgres table id title databaseType content).2
        = .error "Diagram not found"
    ∧ (deleteDiagramSQLite table id).2 = .error "Diagram not found"
    ∧ (deleteDiagramMySQL table id).2 = .error "Diagram not found"
    ∧ (deleteDiagramPostgres table id).2 = .error "Diagram not found" := by
  have h0 := affectedById_eq_zero table id habs
  refine ⟨?_, ?_, ?_, ?_, ?_, ?_⟩ <;>
    simp [updateDiagramSQLite, updateDiagramMySQL, updateDiagramPostgres,
      deleteDiagramSQLite, deleteDiagramMySQL, deleteDiagramPostgres, h0]

/-- Witness for C5: the absent id missing-id against a one-row table. -/
theorem claim_C5_update_delete_notfound_witness :
    (updateDiagramSQLite sampleTable "missing-id" "t" "generic" "c").2
        = .error "Diagram not found"
    ∧ (updateDiagramMySQL sampleTable "missing-id" "t" "generic" "c").2
        = .error "Diagram not found"
    ∧ (updateDiagramPostgres sampleTable "missing-id" "t" "generic" "c").2
        = .error "Diagram not found"
    ∧ (deleteDiagramSQLite sampleTable "missing-id").2 = .error "Diagram not found"
    ∧ (deleteDiagramMySQL sampleTable "missing-id").2 = .error "Diagram not found"
    ∧ (deleteDiagramPostgres sampleTable "missing-id").2 = .error "Diagram not found" :=
  claim_C5_update_delete_notfound sampleTable "missing-id" "t" "generic" "c"
    (by decide)

end Store

namespace Gateway

/-! ### Sync Gateway theorems (claim C2) -/

/-- C2 counterexample: on the HTTP PUT /api/diagrams/:id path the
'diagram-updated' event is delivered back to the originator's own socket
(here A, a member of the room) and carries no updatedBy field, contradicting
the claim for that server emit path. -/
theorem claim_C2_counterexample :
    ("A", ({ diagramId := "d1", timestamp := none, updatedBy := none } : UpdateEvent))
      ∈ putDiagramUpdated ["A", "B"] "d1" := by decide

/-- C2 amended: on the socket.on('diagram-updated') path the event is
delivered to exactly the room members other than the sender and never back
to the sender; when the incoming payload carries no updatedBy key of its
own, every delivered event is augmented with updatedBy = sender and the
pass-through timestamp — but because the ...updateData spread comes after
updatedBy: socket.id in the emitted object, a payload that does carry an
updatedBy key overrides the augmentation with its own value on every
delivery. On the HTTP PUT path the event is emitted to every room member —
the originator's socket included — with no updatedBy field. -/
theorem claim_C2_amended_broadcast (room : List String)
    (senderId diagramId : String) (timestamp : Option String)
    (updatedByOverride : Option (Option String)) :
    (∀ ev ∈ socketDiagramUpdated room senderId diagramId timestamp
        updatedByOverride, ev.1 ≠ senderId)
    ∧ (∀ m ∈ room, m ≠ senderId →
        (m, ({ diagramId := diagramId, timestamp := timestamp,
               updatedBy := updatedByOverride.getD (some senderId) } : UpdateEvent))
          ∈ socketDiagramUpdated room senderId diagramId timestamp
              updatedByOverride)
    ∧ (updatedByOverride = none →
        ∀ ev ∈ socketDiagramUpdated room senderId diagramId timestamp
            updatedByOverride,
          ev.2.updatedBy = some senderId ∧ ev.2.timestamp = timestamp)
    ∧ (∀ v, updatedByOverride = some v →
        ∀ ev ∈ socketDiagramUpdated room senderId diagramId timestamp
            updatedByOverride, ev.2.updatedBy = v)
    ∧ (∀ m ∈ room,
        (m, ({ diagramId := diagramId, timestamp := none,
               updatedBy := none } : UpdateEvent))
          ∈ putDiagramUpdated room diagramId) := by
  refine ⟨?_, ?_, ?_, ?_, ?_⟩
  · intro ev hev
    simp only [socketDiagramUpdated, List.mem_map, List.mem_filter] at hev
    rcases hev with ⟨m, ⟨_, hne⟩, hm⟩
    rw [← hm]
    simpa using hne
  · intro m hm hne
    simp only [socketDiagramUpdated, List.mem_map]
    exact ⟨m, List.mem_filter.mpr ⟨hm, by simpa using hne⟩, rfl⟩
  · intro hovr ev hev
    subst hovr
    simp only [socketDiagramUpdated, List.mem_map] at hev
    rcases hev with ⟨m, _, hm⟩
    rw [← hm]
    exact ⟨rfl, rfl⟩
  · intro v hovr ev hev
    subst hovr
    simp only [socketDiagramUpdated, List.mem_map] at hev
    rcases hev with ⟨m, _, hm⟩
    rw [← hm]
    rfl
  · intro m hm
    simp only [putDiagramUpdated, List.mem_map]
    exact ⟨m, hm, rfl⟩

/-- Witness for the amended C2 statement at the room of A and B with sender
A and a payload without its own updatedBy key: B receives the augmented
event on the socket path, A receives the bare event on the PUT path. -/
theorem claim_C2_amended_broadcast_witness :
    ("B", ({ diagramId := "d1", timestamp := some "t0",
             updatedBy := some "A" } : UpdateEvent))
      ∈ socketDiagramUpdated ["A", "B"] "A" "d1" (some "t0") none
    ∧ ("A", ({ diagramId := "d1", timestamp := none,
               updatedBy := none } : UpdateEvent))
      ∈ putDiagramUpdated ["A", "B"] "d1" :=
  ⟨(claim_C2_amended_broadcast ["A", "B"] "A" "d1" (some "t0") none).2.1 "B"
      (by decide) (by decide),
   (claim_C2_amended_broadcast ["A", "B"] "A" "d1" (some "t0")
      none).2.2.2.2 "A" (by decide)⟩

end Gateway

namespace Client

/-! ### Client remote-update filtering (claim C10) -/

/-- C10: a received 'diagram-updated' event whose updatedBy is missing or
equal to the client's own socket id is ignored entirely — no reload, no
prompt — and any event that is not ignored carries a present, non-empty
updatedBy different from the client's own socket id. -/
theorem claim_C10_remote_update_filter (updatedBy own : Option String)
    (isLoaded auto : Bool) :
    ((updatedBy = none ∨ updatedBy = own) →
      onDiagramUpdate updatedBy own isLoaded auto = .ignore)
    ∧ (onDiagramUpdate updatedBy own isLoaded auto ≠ .ignore →
        ∃ s, updatedBy = some s ∧ s ≠ "" ∧ updatedBy ≠ own) := by
  constructor
  · intro h
    rcases h with h | h
    · subst h
      simp [onDiagramUpdate, Config.truthyStr]
    · subst h
      simp [onDiagramUpdate]
  · intro h
    by_cases hc : Config.truthyStr updatedBy = true ∧ updatedBy ≠ own
    · cases updatedBy with
      | none => simp [Config.truthyStr] at hc
      | some s =>
          refine ⟨s, rfl, ?_, hc.2⟩
          intro hs
          subst hs
          simp [Config.truthyStr] at hc
    · exfalso
      apply h
      rw [onDiagramUpdate, if_neg]
      intro hcontra
      exact hc ⟨hcontra.1, hcontra.2⟩

/-- Witness for C10: a missing updatedBy and a self-originated updatedBy are
both ignored. -/
theorem claim_C10_remote_update_filter_witness :
    onDiagramUpdate none (some "me") true true = .ignore
    ∧ onDiagramUpdate (some "me") (some "me") true true = .ignore :=
  ⟨(claim_C10_remote_update_filter none (some "me") true true).1 (Or.inl rfl),
   (claim_C10_remote_update_filter (some "me") (some "me") true true).1
      (Or.inr rfl)⟩

/-! ### Client save path (claims C6 and C7) -/

/-- C6: when the update of an existing backend document is rejected with
HTTP 404, save retries exactly once as a create; on its success the new id
is recorded in the id state and in window.name (the document identity
becomes existing:newId), the saved signature is updated and the state enters
SAVED; an update failure with any other status is not retried as a create
and sets ERROR. -/
theorem claim_C6_notfound_create_fallback (st : ClientState) (o : SaveOracle)
    (newId : String)
    (hsv : st.saveState = .SAVING)
    (hback : st.useBackendStorage = true) (havail : st.backendAvailable = true)
    (hop : windowOp st.windowName = "d") (hwn : st.windowName ≠ "")
    (hid : hasNoDiagramId st.id = false) :
    (o.updateOutcome = .error { status := some 404 } →
      o.createOutcome = .ok newId →
      save st o =
        ({ st with
           id := .str newId, windowName := "d " ++ newId,
           saveState := .SAVED, lastSavedSignature := st.contentSignature,
           isInitialLoad := false },
         [.updateCall st.id, .createCall]))
    ∧ (∀ e, o.updateOutcome = .error e → e.status ≠ some 404 →
        save st o = ({ st with saveState := .ERROR }, [.updateCall st.id])) := by
  constructor
  · intro h404 hcr
    simp [save, hsv, hop, hwn, hid, hback, havail, h404, hcr]
  · intro e he hne
    simp [save, hsv, hop, hwn, hid, hback, havail, he, hne]

/-- Witness for C6: the dirty existing-document state with a 404 update
outcome falls back to one create; with a 500 outcome it only errors. -/
theorem claim_C6_notfound_create_fallback_witness :
    save { dirtyState with saveState := .SAVING } notFoundOracle =
      ({ dirtyState with
         id := .str "d9", windowName := "d d9", saveState := .SAVED,
         lastSavedSignature := "sigB", isInitialLoad := false },
       [.updateCall (.str "d1"), .createCall])
    ∧ save { dirtyState with saveState := .SAVING } serverErrorOracle =
      ({ dirtyState with saveState := .ERROR }, [.updateCall (.str "d1")]) :=
  ⟨(claim_C6_notfound_create_fallback { dirtyState with saveState := .SAVING }
      notFoundOracle "d9" rfl rfl rfl (by decide) (by decide) (by decide)).1
      rfl rfl,
   (claim_C6_notfound_create_fallback { dirtyState with saveState := .SAVING }
      serverErrorOracle "d9" rfl rfl rfl (by decide) (by decide) (by decide)).2
      { status := some 500 } rfl (by decide)⟩

theorem autosaveStep_of_signature_eq (st : ClientState) (autosave : Bool)
    (o : SaveOracle) (h : st.contentSignature = st.lastSavedSignature) :
    autosaveStep st autosave o = (st, []) := by
  have htrig : autosaveTriggers st autosave = false := by
    simp [autosaveTriggers, h]
  simp [autosaveStep, htrig]

/-- C7: while the content signature equals the last saved signature, an
autosave trigger performs no state change and zero network writes; and from
a dirty persisted state whose update succeeds, one autosave cycle performs
exactly one network write, after which a second trigger with unchanged
content performs zero additional writes — saving twice in a row with
identical content yields exactly one write. -/
theorem claim_C7_signature_guard :
    (∀ (st : ClientState) (autosave : Bool) (o : SaveOracle),
       st.contentSignature = st.lastSavedSignature →
       autosaveStep st autosave o = (st, []))
    ∧ (∀ (st : ClientState) (o o2 : SaveOracle),
       isPersisted st.id = true → st.isInitialLoad = false →
       st.saveState = .SAVED → st.isLoadingDiagram = false →
       st.recentDatabaseSwitch = false →
       st.contentSignature ≠ st.lastSavedSignature →
       st.useBackendStorage = true → st.backendAvailable = true →
       windowOp st.windowName = "d" → st.windowName ≠ "" →
       hasNoDiagramId st.id = false →
       o.updateOutcome = .ok () →
       netWrites (autosaveStep st true o).2 = 1
         ∧ autosaveStep (autosaveStep st true o).1 true o2
             = ((autosaveStep st true o).1, [])) := by
  constructor
  · exact fun st autosave o h => autosaveStep_of_signature_eq st autosave o h
  · intro st o o2 hp hil hsv hld hsw hsig hback havail hop hwn hid hupd
    have htrig : autosaveTriggers st true = true := by
      simp [autosaveTriggers, hp, hil, hsv, hld, hsw, hsig]
    have hsave : save { st with saveState := .SAVING } o =
        ({ st with
           saveState := .SAVED, lastSavedSignature := st.contentSignature },
         [.updateCall st.id]) := by
      simp [save, hop, hwn, hid, hback, havail, hupd]
    have hstep : autosaveStep st true o =
        ({ st with
           saveState := .SAVED, lastSavedSignature := st.contentSignature },
         [.updateCall st.id]) := by
      simp [autosaveStep, htrig, hsave]
    constructor
    · rw [hstep]
      rfl
    · rw [hstep]
      exact autosaveStep_of_signature_eq _ true o2 rfl

/-- Witness for C7: a clean state triggers no write; the dirty state incurs
exactly one network write. -/
theorem claim_C7_signature_guard_witness :
    autosaveStep cleanState true okOracle = (cleanState, [])
    ∧ netWrites (autosaveStep dirtyState true okOracle).2 = 1 :=
  ⟨claim_C7_signature_guard.1 cleanState true okOracle rfl,
   (claim_C7_signature_guard.2 dirtyState okOracle okOracle (by decide) rfl rfl
      rfl rfl (by decide) rfl rfl (by decide) (by decide) (by decide) rfl).1⟩

end Client

namespace Conn

/-! ### Connection Manager testConnection theorems (claim C9) -/

/-- C9 counterexample: testMySQLConnection over an SSH tunnel, on the fully
successful path, returns success but leaves the SSH client handle open and
this.sshTunnel pointing at it — a dangling tunnel handle after return,
contradicting the claim. (currentConnection and connectionConfig are indeed
untouched; the dangling-handle half of the claim is what fails.) -/
theorem claim_C9_counterexample :
    (testMySQLConnection
      { currentConnection := none, connectionConfig := none, sshTunnel := none }
      { nextHandle := 0, openHandles := [] }
      { engine := "mysql", useSSH := true, useSSL := false }
      { tunnel := .ok, connectOk := true, queriesOk := true }).1
        = .ok "MySQL connection successful"
    ∧ (testMySQLConnection
      { currentConnection := none, connectionConfig := none, sshTunnel := none }
      { nextHandle := 0, openHandles := [] }
      { engine := "mysql", useSSH := true, useSSL := false }
      { tunnel := .ok, connectOk := true, queriesOk := true }).2.2.openHandles
        = [0]
    ∧ (testMySQLConnection
      { currentConnection := none, connectionConfig := none, sshTunnel := none }
      { nextHandle := 0, openHandles := [] }
      { engine := "mysql", useSSH := true, useSSL := false }
      { tunnel := .ok, connectOk := true, queriesOk := true }).2.1.sshTunnel
        = some { client := 0, stream := 1 } := by decide

theorem filter_ne_of_lt (l : List Nat) (x : Nat) (h : ∀ a ∈ l, a < x) :
    l.filter (fun a => a ≠ x) = l := by
  simp only [ne_eq, decide_not, List.filter_eq_self, Bool.not_eq_eq_eq_not,
    Bool.not_true, decide_eq_false_iff_not]
  intro a ha
  have := h a ha
  omega

/-- C9 amended: on every exit path testMySQLConnection leaves
currentConnection and connectionConfig exactly as before the call, and
without a tunnel it closes every handle it opened; but when an SSH tunnel is
requested and established, the SSH client handle remains open after return
and stays recorded in this.sshTunnel (only the forwarded stream and the
MySQL connection are closed). -/
theorem claim_C9_amended_frame (st : ManagerState) (w : World)
    (cfg : TestConfig) (o : TestOracle)
    (hwf : ∀ h ∈ w.openHandles, h < w.nextHandle) :
    ((testMySQLConnection st w cfg o).2.1.currentConnection
        = st.currentConnection
      ∧ (testMySQLConnection st w cfg o).2.1.connectionConfig
        = st.connectionConfig)
    ∧ (cfg.useSSH = false →
        (testMySQLConnection st w cfg o).2.2.openHandles = w.openHandles)
    ∧ (cfg.useSSH = true → o.tunnel = .ok →
        (testMySQLConnection st w cfg o).2.1.sshTunnel
          = some { client := w.nextHandle, stream := w.nextHandle + 1 }
        ∧ w.nextHandle ∈ (testMySQLConnection st w cfg o).2.2.openHandles) := by
  have hfilter : w.openHandles.filter (fun a => a ≠ w.nextHandle)
      = w.openHandles := filter_ne_of_lt _ _ hwf
  rcases o with ⟨tun, co, qo⟩
  refine ⟨?_, ?_, ?_⟩
  · by_cases hssh : cfg.useSSH = true <;> cases tun <;> cases co <;> cases qo <;>
      simp [testMySQLConnection, createSSHTunnel, alloc, closeHandle, hssh]
  · intro hssh
    cases co <;> cases qo <;>
      simp [testMySQLConnection, alloc, closeHandle, hssh, hfilter] <;>
      (intro a ha
       have := hwf a ha
       omega)
  · intro hssh htun
    subst htun
    have h01 : w.nextHandle ≠ w.nextHandle + 1 := by omega
    have h02 : w.nextHandle ≠ w.nextHandle + 2 := by omega
    have h12 : w.nextHandle + 1 ≠ w.nextHandle + 2 := by omega
    cases co <;> cases qo <;>
      simp [testMySQLConnection, createSSHTunnel, alloc, closeHandle, hssh,
        h01, h02, h12]

/-- Witness for the amended C9 statement on the concrete successful SSH run
(dangling client) and the tunnel-free run (no leak). -/
theorem claim_C9_amended_frame_witness :
    ((testMySQLConnection
        { currentConnection := none, connectionConfig := none, sshTunnel := none }
        { nextHandle := 0, openHandles := [] }
        { engine := "mysql", useSSH := false, useSSL := false }
        { tunnel := .ok, connectOk := true, queriesOk := true }).2.2.openHandles
      = [])
    ∧ ((testMySQLConnection
        { currentConnection := none, connectionConfig := none, sshTunnel := none }
        { nextHandle := 0, openHandles := [] }
        { engine := "mysql", useSSH := true, useSSL := false }
        { tunnel := .ok, connectOk := true, queriesOk := true }).2.1.sshTunnel
      = some { client := 0, stream := 1 }) :=
  ⟨(claim_C9_amended_frame
      { currentConnection := none, connectionConfig := none, sshTunnel := none }
      { nextHandle := 0, openHandles := [] }
      { engine := "mysql", useSSH := false, useSSL := false }
      { tunnel := .ok, connectOk := true, queriesOk := true }
      (by decide)).2.1 rfl,
   ((claim_C9_amended_frame
      { currentConnection := none, connectionConfig := none, sshTunnel := none }
      { nextHandle := 0, openHandles := [] }
      { engine := "mysql", useSSH := true, useSSL := false }
      { tunnel := .ok, connectOk := true, queriesOk := true }
      (by decide)).2.2 rfl rfl).1⟩

end Conn

end DrawDB
